import Mathlib

/-!
Verification of the frame decoding, classification and routing-dispatch
core of `pva_broadcast.py` (zmq_to_pva).

The Python source is shallowly embedded:
* byte buffers are `List Nat` (each entry one byte value);
* NumPy big-endian decoding (`np.frombuffer` with `">u4"` / `">u2"`) is
  explicit chunking of the byte list, returning `none` when the buffer
  length is not a multiple of the item size (NumPy raises `ValueError`);
* Python exceptions become an explicit `PyErr` value;
* Python `float` is modelled by `Rat` (all values reached by the claims
  are exact in both); Python float division by zero raises
  `ZeroDivisionError`, which the model mirrors;
* side effects (PVA broadcasts, theta computations, `epics.caput`
  metadata writes) are collected in an explicit `Effects` record.
-/

/-- Python exception outcomes reachable in the embedded code, plus
`degenerateAngleRange`, the error *named by the spec* for the
`NumAngles == 1` division (the source never raises it; it is included
so that the spec's naming can be compared with the code's behaviour). -/
inductive PyErr where
  | valueError
  | indexError
  | keyError
  | unboundLocalError
  | zeroDivisionError
  | degenerateAngleRange
  deriving DecidableEq, Repr

/-- A dynamically typed Python value as passed to the sinks. -/
inductive PyVal where
  | vstr (s : String)
  | vint (n : Int)
  | vfloat (q : Rat)
  deriving DecidableEq, Repr

/-- Bytes of an ASCII string literal (models Python `b"..."`). -/
def asciiBytes (s : String) : List Nat := s.data.map Char.toNat

/-- Models `bytes.decode()` for the ASCII byte buffers used here. -/
def asciiDecode (bs : List Nat) : String := ⟨bs.map Char.ofNat⟩

/-- `np.frombuffer(b, dtype=">u4")`: split into big-endian 32-bit words;
`none` when the length is not a multiple of 4 (NumPy `ValueError`). -/
def bytesToU32BE : List Nat → Option (List Nat)
  | [] => some []
  | b0 :: b1 :: b2 :: b3 :: rest =>
    (bytesToU32BE rest).map (fun ws => (((b0 * 256 + b1) * 256 + b2) * 256 + b3) :: ws)
  | _ => none

/-- `np.frombuffer(b, dtype=">u2")`: split into big-endian 16-bit words;
`none` when the length is odd (NumPy `ValueError`). -/
def bytesToU16BE : List Nat → Option (List Nat)
  | [] => some []
  | b0 :: b1 :: rest =>
    (bytesToU16BE rest).map (fun ws => (b0 * 256 + b1) :: ws)
  | _ => none

/-- The 7 buffers of one multi-part message, in the fixed receive order
of `ReadBCSTomoData.read` (`endp` is the source's `data_obj["end"]`). -/
structure RawMsg where
  start : List Nat
  image : List Nat
  info : List Nat
  h5_file : List Nat
  tif_file : List Nat
  params : List Nat
  endp : List Nat
  deriving DecidableEq, Repr

/-- The decoded `data_obj` produced by `ReadBCSTomoData.read`: `info`
holds the decoded 32-bit words, `image` the decoded 16-bit values in
row-major order, with NumPy shape `(1, imageRows, imageCols)`. -/
structure DataObj where
  start : List Nat
  image : List Nat
  imageRows : Nat
  imageCols : Nat
  info : List Nat
  h5_file : List Nat
  tif_file : List Nat
  params : List Nat
  endp : List Nat
  deriving DecidableEq, Repr

/-- `ReadBCSTomoData.read`, after the seven `sock_recv` calls.  The
source decodes `info` and `image` (and reshapes) *before* checking the
start/end tags; `.ok none` is the `(None, None)` return on bad tags. -/
def ReadBCSTomoData.read (msg : RawMsg) : Except PyErr (Option DataObj) :=
  match bytesToU32BE (msg.info.drop 4) with
  | none => .error .valueError
  | some info =>
    match bytesToU16BE (msg.image.drop 4) with
    | none => .error .valueError
    | some image =>
      match info.get? 1 with
      | none => .error .indexError
      | some r =>
        match info.get? 0 with
        | none => .error .indexError
        | some c =>
          if image.length = r * c then
            if (asciiBytes "[start]").isPrefixOf msg.start
                && (asciiBytes "[end]").isPrefixOf msg.endp then
              .ok (some ⟨msg.start, image, r, c, info,
                          msg.h5_file, msg.tif_file, msg.params, msg.endp⟩)
            else
              .ok none
          else
            .error .valueError

/-- `ReadBCSTomoData.is_final`: params buffer starts with `b"-writedone"`. -/
def is_final (d : DataObj) : Bool := (asciiBytes "-writedone").isPrefixOf d.params

/-- `ReadBCSTomoData.is_garbage`: params buffer starts with `b"meta data"`. -/
def is_garbage (d : DataObj) : Bool := (asciiBytes "meta data").isPrefixOf d.params

/-- `ReadBCSTomoData.is_null_frame`: `image.shape[1] + image.shape[2] <= 3`. -/
def is_null_frame (d : DataObj) : Bool := decide (d.imageRows + d.imageCols ≤ 3)

/-- The four frame classes of the classifier. -/
inductive FrameClass where
  | Final
  | Garbage
  | Null
  | Valid
  deriving DecidableEq, Repr

/-- The classification precedence of `ZMQ_Stream.zmq_monitor_loop`:
`is_final`, then `is_garbage`, then `is_null_frame`, else valid. -/
def classify (d : DataObj) : FrameClass :=
  if is_final d then .Final
  else if is_garbage d then .Garbage
  else if is_null_frame d then .Null
  else .Valid

/-- Python `str.split(sep)` for a single-character separator: splits on
every occurrence, keeping empty pieces (never returns an empty list).
`acc` is the piece currently being accumulated. -/
def splitChar (sep : Char) : List Char → List Char → List (List Char)
  | [], acc => [acc]
  | c :: rest, acc =>
    if c = sep then acc :: splitChar sep rest []
    else splitChar sep rest (acc ++ [c])

/-- Python `str.split('\r\n')`: splits on every non-overlapping CRLF,
keeping empty pieces. -/
def splitCRLF : List Char → List Char → List (List Char)
  | [], acc => [acc]
  | '\r' :: '\n' :: rest, acc => acc :: splitCRLF rest []
  | c :: rest, acc => splitCRLF rest (acc ++ [c])

/-- The parameter dictionary: string keys to string values. -/
abbrev ParamDict := List (String × String)

/-- Python dict assignment `d[k] = v`: overwrite the entry in place if
the key is present, otherwise append the new binding. -/
def dict_set : ParamDict → String → String → ParamDict
  | [], k, v => [(k, v)]
  | (k', v') :: rest, k, v =>
    if k' = k then (k, v) :: rest else (k', v') :: dict_set rest k v

/-- `ReadBCSTomoData.params_to_dict`: decode the params buffer, split on
CRLF, split each line on spaces; `kv_split[1]` (the second token) is
the value when a space is present, else the value is `""`. -/
def params_to_dict (params : String) : ParamDict :=
  (splitCRLF params.data []).foldl (fun output_dict i =>
    match splitChar ' ' i [] with
    | [] => output_dict
    | [k] => dict_set output_dict ⟨k⟩ ""
    | k :: v :: _ => dict_set output_dict ⟨k⟩ ⟨v⟩) []

/-- Digit string to number (caller guarantees all characters are digits). -/
def digitsToNat (cs : List Char) : Nat :=
  cs.foldl (fun a c => a * 10 + (c.toNat - 48)) 0

/-- Python `int(s)` on the strings reaching it here: optional sign then
decimal digits; anything else raises `ValueError`.  (CPython also
strips whitespace and allows underscores; no input here uses either.) -/
def py_int (s : String) : Except PyErr Int :=
  match s.data with
  | '-' :: rest =>
    if rest ≠ [] ∧ rest.all Char.isDigit then .ok (-(digitsToNat rest : Int))
    else .error .valueError
  | '+' :: rest =>
    if rest ≠ [] ∧ rest.all Char.isDigit then .ok (digitsToNat rest : Int)
    else .error .valueError
  | cs =>
    if cs ≠ [] ∧ cs.all Char.isDigit then .ok (digitsToNat cs : Int)
    else .error .valueError

/-- Decimal-literal core of Python `float(s)`: optional sign, digits,
optional point and fraction digits; at least one digit overall. -/
def parseFloatCore (cs : List Char) : Option Rat :=
  match cs with
  | '-' :: rest => (parseFloatMag rest).map (fun q => -q)
  | '+' :: rest => parseFloatMag rest
  | rest => parseFloatMag rest
where
  parseFloatMag (cs : List Char) : Option Rat :=
    let ip := cs.takeWhile Char.isDigit
    match cs.dropWhile Char.isDigit with
    | [] => if ip = [] then none else some (digitsToNat ip : Rat)
    | '.' :: fp =>
      if fp.all Char.isDigit ∧ (ip ≠ [] ∨ fp ≠ []) then
        some ((digitsToNat ip : Rat) + (digitsToNat fp : Rat) / (10 : Rat) ^ fp.length)
      else none
    | _ => none

/-- Python `float(s)` (on the decimal literals reaching it here),
modelled over `Rat`; failure is `ValueError`. -/
def py_float (s : String) : Except PyErr Rat :=
  match parseFloatCore s.data with
  | some q => .ok q
  | none => .error .valueError

/-- Python float division: raises `ZeroDivisionError` on a zero divisor
(it never yields an infinity or NaN). -/
def py_div (a b : Rat) : Except PyErr Rat :=
  if b = 0 then .error .zeroDivisionError else .ok (a / b)

/-- `np.linspace(start, stop, num)`: `num` evenly spaced samples with
both endpoints included; a negative `num` raises `ValueError`. -/
def np_linspace (start stop : Rat) (num : Int) : Except PyErr (List Rat) :=
  if num < 0 then .error .valueError
  else if num = 1 then .ok [start]
  else .ok ((List.range num.toNat).map
    (fun i => start + (stop - start) * (i : Rat) / ((num : Rat) - 1)))

/-- `TomoStreamPVASet.parse_image_params`.  The two early returns hand
back the Python ints `0, 0` with `'uint16'`; otherwise `columns` and
`rows` are the raw strings from the dictionary.  The `dtype` local is
assigned only when `-dtype` is present *and* empty, so every other path
reaches `return columns, rows, dtype` with `dtype` unbound
(`UnboundLocalError`). -/
def parse_image_params (d : ParamDict) :
    Except PyErr (PyVal × PyVal × String) :=
  match (match List.lookup "-nrays" d with
         | some v => some v
         | none => List.lookup "+nrays" d) with
  | none => .ok (.vint 0, .vint 0, "uint16")
  | some columns =>
    match (match List.lookup "-nslices" d with
           | some v => some v
           | none => List.lookup "+nslices" d) with
    | none => .ok (.vint 0, .vint 0, "uint16")
    | some rows =>
      match List.lookup "-dtype" d with
      | some s => if s = "" then .ok (.vstr columns, .vstr rows, "uint16")
                  else .error .unboundLocalError
      | none => .error .unboundLocalError

/-- PV root used for the ancillary writes (`tomostream_prefix` in the
source). -/
def tomostream_pv_root : String := "ALS832:TomoStream:"

/-- `TomoStreamPVASet.update_ancillary_pvs`: the `epics.caput` writes
performed, in order, paired with the exception raised, if any.  The
source writes `NumAngles`, then computes and writes `RotationStep`,
then writes `FrameType` from the raw `-image_key` value. -/
def update_ancillary_pvs (pv_root : String) (d : ParamDict) :
    List (String × PyVal) × Option PyErr :=
  match List.lookup "-nangles" d with
  | none => ([], some .keyError)
  | some ns =>
    match py_int ns with
    | .error e => ([], some e)
    | .ok num_angles =>
      let w1 := (pv_root ++ "NumAngles", PyVal.vint num_angles)
      match List.lookup "-arange" d with
      | none => ([w1], some .keyError)
      | some ar =>
        match py_float ar with
        | .error e => ([w1], some e)
        | .ok arange =>
          match py_div arange ((num_angles : Rat) - 1) with
          | .error e => ([w1], some e)
          | .ok rotation_step =>
            let w2 := (pv_root ++ "RotationStep", PyVal.vfloat rotation_step)
            match List.lookup "-image_key" d with
            | none => ([w1, w2], some .keyError)
            | some ik => ([w1, w2, (pv_root ++ "FrameType", PyVal.vstr ik)], none)

/-- `TomoStreamPVASet.broadcast_theta`: computes the theta values with
`np.linspace(0, arange, num_angles)` (they are only logged, never
broadcast). -/
def broadcast_theta (d : ParamDict) : Except PyErr (List Rat) :=
  match List.lookup "-nangles" d with
  | none => .error .keyError
  | some ns =>
    match py_int ns with
    | .error e => .error e
    | .ok num_angles =>
      match List.lookup "-arange" d with
      | none => .error .keyError
      | some ar =>
        match py_float ar with
        | .error e => .error e
        | .ok angle_range => np_linspace 0 angle_range num_angles

/-- The three broadcast sinks the dispatcher can route to. -/
inductive Sink where
  | data
  | white
  | dark
  deriving DecidableEq, Repr

/-- One `frameProducer` call: destination sink and its arguments. -/
structure BroadcastCall where
  sink : Sink
  frameID : Nat
  frame : List Nat
  columns : PyVal
  rows : PyVal
  dtype : String
  deriving DecidableEq, Repr

/-- The observable side effects of one dispatch: broadcasts issued,
number of theta computations completed, metadata writes performed. -/
structure Effects where
  broadcasts : List BroadcastCall
  thetas : Nat
  caputs : List (String × PyVal)
  deriving DecidableEq, Repr

/-- No side effects. -/
def Effects.empty : Effects := ⟨[], 0, []⟩

/-- `TomoStreamPVASet.broadcast_image`: missing `-image_key` prints a
diagnostic and returns; otherwise parse the image params, route on
`int(param_dict['-image_key'])` (0 → data sink then theta, 1 → white,
2 → dark, anything else → no broadcast), then update the ancillary PVs.
An exception aborts the remaining effects and propagates. -/
def broadcast_image (frame_data : List Nat) (d : ParamDict) (frameID : Nat) :
    Effects × Option PyErr :=
  match List.lookup "-image_key" d with
  | none => (Effects.empty, none)
  | some ik =>
    match parse_image_params d with
    | .error e => (Effects.empty, some e)
    | .ok (columns, rows, dtype) =>
      match py_int ik with
      | .error e => (Effects.empty, some e)
      | .ok k =>
        let bcs : List BroadcastCall :=
          if k = 0 then [⟨.data, frameID, frame_data, columns, rows, dtype⟩]
          else if k = 1 then [⟨.white, frameID, frame_data, columns, rows, dtype⟩]
          else if k = 2 then [⟨.dark, frameID, frame_data, columns, rows, dtype⟩]
          else []
        if k = 0 then
          match broadcast_theta d with
          | .error e => (⟨bcs, 0, []⟩, some e)
          | .ok _ =>
            let wr := update_ancillary_pvs tomostream_pv_root d
            (⟨bcs, 1, wr.1⟩, wr.2)
        else
          let wr := update_ancillary_pvs tomostream_pv_root d
          (⟨bcs, 0, wr.1⟩, wr.2)

/-- One iteration of `ZMQ_Stream.zmq_monitor_loop` on a decoded
`data_obj`: final, garbage and null frames are dropped with no effects;
a valid frame is dispatched with `frameID = data_obj['info'][4]`
(`IndexError` when `info` has fewer than 5 words). -/
def process_frame (d : DataObj) : Effects × Option PyErr :=
  if is_final d then (Effects.empty, none)
  else if is_garbage d then (Effects.empty, none)
  else if is_null_frame d then (Effects.empty, none)
  else
    let param_dict := params_to_dict (asciiDecode d.params)
    match d.info.get? 4 with
    | none => (Effects.empty, some .indexError)
    | some fid => broadcast_image d.image param_dict fid

/-- Big-endian 4-byte encoding of a 32-bit word (for building the
synthetic messages of the round-trip property). -/
def u32be (w : Nat) : List Nat :=
  [w / 16777216 % 256, w / 65536 % 256, w / 256 % 256, w % 256]

/-- Big-endian 2-byte encoding of a 16-bit value. -/
def u16be (v : Nat) : List Nat := [v / 256 % 256, v % 256]

/-- Big-endian 2-byte encoding of a whole value sequence. -/
def encodeU16List : List Nat → List Nat
  | [] => []
  | v :: rest => u16be v ++ encodeU16List rest

/-- Key of a parameter line per the spec: the text before the first
space. -/
def specKey (l : List Char) : String := ⟨l.takeWhile (fun c => c != ' ')⟩

/-- Value of a parameter line per the amended spec: the text between
the first space and the following space (or the end of the line); the
empty string when the line has no space. -/
def specVal (l : List Char) : String :=
  ⟨((l.dropWhile (fun c => c != ' ')).drop 1).takeWhile (fun c => c != ' ')⟩

/-- Modelled from the spec (amended C5): the mapping denoted by a
parameter block, as a lookup over its CRLF-split lines — the key is the
text before the first space, the value the second space-split token,
and when a key occurs on several lines the last occurrence wins. -/
def specLookupLines (k : String) : List (List Char) → Option String
  | [] => none
  | l :: rest =>
    match specLookupLines k rest with
    | some v => some v
    | none => if specKey l = k then some (specVal l) else none

/-- C1: classification precedence — a frame whose params buffer starts
with the literal bytes `"-writedone"` classifies `Final` and is dropped
without dispatch (no side effects), whatever its grid shape, because
`is_final` is evaluated before `is_garbage` and `is_null_frame`. -/
theorem C1_final_precedence (d : DataObj) (h : is_final d = true) :
    classify d = FrameClass.Final ∧ process_frame d = (Effects.empty, none) := by
  constructor
  · simp [classify, h]
  · simp [process_frame, h]

/-- C1 witness: a concrete frame whose params start with `-writedone`
and whose grid shape (1 row, 1 column) also satisfies the `Null`
predicate still classifies `Final` with no dispatch. -/
theorem C1_final_precedence_witness :
    (is_final ⟨[], [1], 1, 1, [1, 1, 0, 0, 9], [], [], asciiBytes "-writedone", []⟩ = true ∧
     is_null_frame ⟨[], [1], 1, 1, [1, 1, 0, 0, 9], [], [], asciiBytes "-writedone", []⟩ = true) ∧
    (classify ⟨[], [1], 1, 1, [1, 1, 0, 0, 9], [], [], asciiBytes "-writedone", []⟩
        = FrameClass.Final ∧
     process_frame ⟨[], [1], 1, 1, [1, 1, 0, 0, 9], [], [], asciiBytes "-writedone", []⟩
        = (Effects.empty, none)) :=
  ⟨⟨by decide, by decide⟩, C1_final_precedence _ (by decide)⟩

/-- C2: for a frame that is neither `Final` nor `Garbage`, the class is
`Null` exactly when the row count plus the column count is at most 3,
and `Valid` otherwise. -/
theorem C2_null_boundary (d : DataObj)
    (hf : is_final d = false) (hg : is_garbage d = false) :
    classify d =
      if d.imageRows + d.imageCols ≤ 3 then FrameClass.Null else FrameClass.Valid := by
  by_cases h : d.imageRows + d.imageCols ≤ 3 <;>
    simp [classify, hf, hg, is_null_frame, h]

/-- C2 witness: a 1×2 grid (sum 3) classifies `Null`; a 2×2 grid
(sum 4) classifies `Valid` (params satisfy neither tag predicate). -/
theorem C2_null_boundary_witness :
    (is_final ⟨[], [1, 2], 1, 2, [2, 1, 0, 0, 9], [], [], asciiBytes "-image_key 0", []⟩ = false ∧
     is_garbage ⟨[], [1, 2], 1, 2, [2, 1, 0, 0, 9], [], [], asciiBytes "-image_key 0", []⟩ = false ∧
     classify ⟨[], [1, 2], 1, 2, [2, 1, 0, 0, 9], [], [], asciiBytes "-image_key 0", []⟩
        = FrameClass.Null) ∧
    (is_final ⟨[], [1, 2, 3, 4], 2, 2, [2, 2, 0, 0, 9], [], [], asciiBytes "-image_key 0", []⟩ = false ∧
     is_garbage ⟨[], [1, 2, 3, 4], 2, 2, [2, 2, 0, 0, 9], [], [], asciiBytes "-image_key 0", []⟩ = false ∧
     classify ⟨[], [1, 2, 3, 4], 2, 2, [2, 2, 0, 0, 9], [], [], asciiBytes "-image_key 0", []⟩
        = FrameClass.Valid) :=
  ⟨⟨by decide, by decide,
    by simpa using C2_null_boundary _ (by decide) (by decide)⟩,
   ⟨by decide, by decide,
    by simpa using C2_null_boundary _ (by decide) (by decide)⟩⟩

/-- C10: when the dictionary has a rays key and a slices key (either
variant), `parse_image_params` returns a defined datatype only when
`-dtype` is present and maps to the empty string; otherwise the
`dtype` local is read before assignment and the call raises
`UnboundLocalError` instead of returning a triple. -/
theorem C10_dtype_unbound (d : ParamDict)
    (hc : (List.lookup "-nrays" d).isSome ∨ (List.lookup "+nrays" d).isSome)
    (hr : (List.lookup "-nslices" d).isSome ∨ (List.lookup "+nslices" d).isSome) :
    (List.lookup "-dtype" d = some "" →
      ∃ c r, parse_image_params d = .ok (.vstr c, .vstr r, "uint16")) ∧
    (List.lookup "-dtype" d ≠ some "" →
      parse_image_params d = .error .unboundLocalError) := by
  obtain ⟨cv, hcv⟩ : ∃ v, (match List.lookup "-nrays" d with
      | some v => some v
      | none => List.lookup "+nrays" d) = some v := by
    cases h1 : List.lookup "-nrays" d with
    | some w => exact ⟨w, by simp⟩
    | none =>
      rcases hc with h | h
      · rw [h1] at h; exact absurd h (by simp)
      · obtain ⟨v, hv⟩ := Option.isSome_iff_exists.mp h
        exact ⟨v, by simp [hv]⟩
  obtain ⟨rv, hrv⟩ : ∃ v, (match List.lookup "-nslices" d with
      | some v => some v
      | none => List.lookup "+nslices" d) = some v := by
    cases h1 : List.lookup "-nslices" d with
    | some w => exact ⟨w, by simp⟩
    | none =>
      rcases hr with h | h
      · rw [h1] at h; exact absurd h (by simp)
      · obtain ⟨v, hv⟩ := Option.isSome_iff_exists.mp h
        exact ⟨v, by simp [hv]⟩
  unfold parse_image_params
  rw [hcv, hrv]
  constructor
  · intro hdt
    exact ⟨cv, rv, by rw [hdt]; simp⟩
  · intro hdt
    cases h3 : List.lookup "-dtype" d with
    | none => simp
    | some s =>
      have hs : s ≠ "" := by
        intro h; exact hdt (by rw [h3, h])
      simp [hs]

/-- C10 witness: with `-nrays` and `-nslices` present but `-dtype`
absent, `parse_image_params` raises `UnboundLocalError`; adding
`-dtype` mapped to `""` makes it return the raw shape strings. -/
theorem C10_dtype_unbound_witness :
    (List.lookup "-dtype" [("-nrays", "10"), ("-nslices", "20")] ≠ some "" ∧
     parse_image_params [("-nrays", "10"), ("-nslices", "20")]
        = .error .unboundLocalError) ∧
    (List.lookup "-dtype" [("-nrays", "10"), ("-nslices", "20"), ("-dtype", "")] = some "" ∧
     ∃ c r, parse_image_params [("-nrays", "10"), ("-nslices", "20"), ("-dtype", "")]
        = .ok (.vstr c, .vstr r, "uint16")) :=
  ⟨⟨by decide,
    (C10_dtype_unbound [("-nrays", "10"), ("-nslices", "20")]
      (by simp) (by simp)).2 (by decide)⟩,
   ⟨by decide,
    (C10_dtype_unbound [("-nrays", "10"), ("-nslices", "20"), ("-dtype", "")]
      (by simp) (by simp)).1 (by decide)⟩⟩

/-- Decoding a big-endian 32-bit encoding prepended to a buffer peels
off exactly that word. -/
theorem bytesToU32BE_u32be_append (w : Nat) (hw : w < 4294967296) (rest : List Nat) :
    bytesToU32BE (u32be w ++ rest) = (bytesToU32BE rest).map (fun ws => w :: ws) := by
  have hx : (((w / 16777216 % 256) * 256 + w / 65536 % 256) * 256 + w / 256 % 256) * 256
      + w % 256 = w := by omega
  simp [u32be, bytesToU32BE, hx]

/-- Decoding the big-endian 16-bit encoding of a value sequence whose
entries fit in 16 bits recovers the sequence. -/
theorem bytesToU16BE_encode (vs : List Nat) (h : ∀ v ∈ vs, v < 65536) :
    bytesToU16BE (encodeU16List vs) = some vs := by
  induction vs with
  | nil => rfl
  | cons v t ih =>
    have hv : v < 65536 := h v (by simp)
    have hx : v / 256 % 256 * 256 + v % 256 = v := by omega
    have ht := ih (fun x hx => h x (by simp [hx]))
    simp [encodeU16List, u16be, bytesToU16BE, hx, ht]

/-- C4: a synthetic 7-part message whose info buffer decodes to
`[W, H, 0, 0, 123]` (4-byte header skipped, big-endian unsigned 32-bit)
and whose image buffer holds exactly `W*H` big-endian unsigned 16-bit
values after its 4-byte header decodes to an envelope with grid shape
`(H, W)`, values equal to the input sequence in row-major order, and
frame identifier (`info[4]`) 123. -/
theorem C4_roundtrip (W H : Nat) (hW : W < 4294967296) (hH : H < 4294967296)
    (vals : List Nat) (hlen : vals.length = W * H) (hvals : ∀ v ∈ vals, v < 65536)
    (hdrI hdrM s e h5 tif ps : List Nat) (hI : hdrI.length = 4) (hM : hdrM.length = 4)
    (hs : (asciiBytes "[start]").isPrefixOf s = true)
    (he : (asciiBytes "[end]").isPrefixOf e = true) :
    ReadBCSTomoData.read ⟨s, hdrM ++ encodeU16List vals,
          hdrI ++ (u32be W ++ (u32be H ++ (u32be 0 ++ (u32be 0 ++ u32be 123)))),
          h5, tif, ps, e⟩
      = .ok (some ⟨s, vals, H, W, [W, H, 0, 0, 123], h5, tif, ps, e⟩) ∧
    [W, H, 0, 0, 123].get? 4 = some 123 := by
  have dropI : (hdrI ++ (u32be W ++ (u32be H ++ (u32be 0 ++ (u32be 0 ++ u32be 123))))).drop 4
      = u32be W ++ (u32be H ++ (u32be 0 ++ (u32be 0 ++ u32be 123))) := by
    have := List.drop_left hdrI (u32be W ++ (u32be H ++ (u32be 0 ++ (u32be 0 ++ u32be 123))))
    rwa [hI] at this
  have dropM : (hdrM ++ encodeU16List vals).drop 4 = encodeU16List vals := by
    have := List.drop_left hdrM (encodeU16List vals)
    rwa [hM] at this
  have i5 : bytesToU32BE (u32be 123) = some [123] := by decide
  have i4 : bytesToU32BE (u32be 0 ++ u32be 123) = some [0, 123] := by
    rw [bytesToU32BE_u32be_append 0 (by omega), i5]; rfl
  have i3 : bytesToU32BE (u32be 0 ++ (u32be 0 ++ u32be 123)) = some [0, 0, 123] := by
    rw [bytesToU32BE_u32be_append 0 (by omega), i4]; rfl
  have i2 : bytesToU32BE (u32be H ++ (u32be 0 ++ (u32be 0 ++ u32be 123)))
      = some [H, 0, 0, 123] := by
    rw [bytesToU32BE_u32be_append H hH, i3]; rfl
  have i1 : bytesToU32BE (u32be W ++ (u32be H ++ (u32be 0 ++ (u32be 0 ++ u32be 123))))
      = some [W, H, 0, 0, 123] := by
    rw [bytesToU32BE_u32be_append W hW, i2]; rfl
  have im : bytesToU16BE (encodeU16List vals) = some vals := bytesToU16BE_encode vals hvals
  constructor
  · unfold ReadBCSTomoData.read
    simp only [dropI, dropM, i1, im]
    have hlen' : vals.length = H * W := by rw [hlen, Nat.mul_comm]
    simp [hs, he, hlen']
  · rfl

/-- C4 witness: a concrete message with `W = 2`, `H = 3` and values
`[1, 2, 3, 4, 5, 6]` decodes to shape `(3, 2)` with the values in
row-major order and frame identifier 123. -/
theorem C4_roundtrip_witness :
    ReadBCSTomoData.read ⟨asciiBytes "[start]",
          [9, 9, 9, 9] ++ encodeU16List [1, 2, 3, 4, 5, 6],
          [9, 9, 9, 9] ++ (u32be 2 ++ (u32be 3 ++ (u32be 0 ++ (u32be 0 ++ u32be 123)))),
          [], [], asciiBytes "-image_key 0", asciiBytes "[end]"⟩
      = .ok (some ⟨asciiBytes "[start]", [1, 2, 3, 4, 5, 6], 3, 2, [2, 3, 0, 0, 123],
                    [], [], asciiBytes "-image_key 0", asciiBytes "[end]"⟩) ∧
    [2, 3, 0, 0, 123].get? 4 = some 123 :=
  C4_roundtrip 2 3 (by decide) (by decide) [1, 2, 3, 4, 5, 6] (by decide) (by decide)
    [9, 9, 9, 9] [9, 9, 9, 9] (asciiBytes "[start]") (asciiBytes "[end]")
    [] [] (asciiBytes "-image_key 0") (by decide) (by decide) (by decide) (by decide)

/-- C8 counterexample: a 7-part message whose start buffer does not
begin with `"[start]"` but whose info buffer (5 bytes: one byte after
the skipped header) cannot be decoded raises `ValueError` — the info
field is computed before the tag check — instead of yielding the
`BadTags` outcome (the `.ok none` return), refuting the claim that bad
tags always yield `BadTags` with info/image never computed. -/
theorem C8_counterexample :
    ReadBCSTomoData.read ⟨asciiBytes "xxx", [], [0, 0, 0, 0, 9], [], [], [], []⟩
      = .error PyErr.valueError ∧
    (asciiBytes "[start]").isPrefixOf (asciiBytes "xxx") = false ∧
    (Except.error PyErr.valueError : Except PyErr (Option DataObj)) ≠ .ok none := by
  refine ⟨by rfl, by decide, ?_⟩
  intro h
  exact Except.noConfusion h

/-- C8 (amended): when the info and image buffers themselves decode
(info words and 16-bit values computed first, element count matching
the grid), a start or end buffer that fails its literal prefix check
makes `read` yield the `BadTags` outcome `(None, None)`, modelled as
`.ok none`. -/
theorem C8_bad_tags (msg : RawMsg) (ws : List Nat) (r c : Nat) (vs : List Nat)
    (h1 : bytesToU32BE (msg.info.drop 4) = some ws)
    (h2 : ws.get? 1 = some r) (h3 : ws.get? 0 = some c)
    (h4 : bytesToU16BE (msg.image.drop 4) = some vs)
    (h5 : vs.length = r * c)
    (h6 : ((asciiBytes "[start]").isPrefixOf msg.start
            && (asciiBytes "[end]").isPrefixOf msg.endp) = false) :
    ReadBCSTomoData.read msg = .ok none := by
  unfold ReadBCSTomoData.read
  simp only [h1, h4, h2, h3]
  simp [h5, h6]

/-- C8 witness: a concrete message with decodable info and image
buffers but a bad start tag yields the `BadTags` outcome. -/
theorem C8_bad_tags_witness :
    ReadBCSTomoData.read ⟨asciiBytes "xxx",
          [9, 9, 9, 9, 0, 1],
          [9, 9, 9, 9] ++ (u32be 1 ++ (u32be 1 ++ (u32be 0 ++ (u32be 0 ++ u32be 7)))),
          [], [], [], asciiBytes "[end]"⟩ = .ok none :=
  C8_bad_tags _ [1, 1, 0, 0, 7] 1 1 [1]
    (by decide) (by decide) (by decide) (by decide) (by decide) (by decide)

/-- With the `-nrays`/`-nslices` variants present and `-dtype` mapped
to the empty string, `parse_image_params` returns the raw shape
strings with the fixed `uint16` datatype. -/
theorem parse_image_params_ok (d : ParamDict) (cs rs : String)
    (hcs : List.lookup "-nrays" d = some cs)
    (hrs : List.lookup "-nslices" d = some rs)
    (hdt : List.lookup "-dtype" d = some "") :
    parse_image_params d = .ok (.vstr cs, .vstr rs, "uint16") := by
  unfold parse_image_params
  rw [hcs, hrs, hdt]
  simp

/-- With `-nangles` parsing to an integer other than 1 and `-arange`
parsing to a float, `update_ancillary_pvs` performs exactly the three
writes `NumAngles`, `RotationStep`, `FrameType` and raises nothing. -/
theorem update_ancillary_ok (pv_root : String) (d : ParamDict) (ns ar ik : String)
    (n : Int) (a : Rat)
    (hns : List.lookup "-nangles" d = some ns) (hn : py_int ns = .ok n)
    (har : List.lookup "-arange" d = some ar) (ha : py_float ar = .ok a)
    (hik : List.lookup "-image_key" d = some ik) (hn1 : n ≠ 1) :
    update_ancillary_pvs pv_root d =
      ([(pv_root ++ "NumAngles", .vint n),
        (pv_root ++ "RotationStep", .vfloat (a / ((n : Rat) - 1))),
        (pv_root ++ "FrameType", .vstr ik)], none) := by
  have hd : ((n : Rat) - 1) ≠ 0 := by
    intro h
    apply hn1
    have h1 : (n : Rat) = 1 := by linarith
    exact_mod_cast h1
  unfold update_ancillary_pvs
  simp only [hns, hn, har, ha, hik, py_div, hd, if_false]

/-- With `-nangles` parsing to a non-negative integer and `-arange`
parsing to a float, `broadcast_theta` completes (computes the theta
values). -/
theorem broadcast_theta_ok (d : ParamDict) (ns ar : String) (n : Int) (a : Rat)
    (hns : List.lookup "-nangles" d = some ns) (hn : py_int ns = .ok n)
    (har : List.lookup "-arange" d = some ar) (ha : py_float ar = .ok a)
    (hn0 : 0 ≤ n) :
    ∃ ts, broadcast_theta d = .ok ts := by
  unfold broadcast_theta
  simp only [hns, hn, har, ha]
  unfold np_linspace
  have h0 : ¬ (n < 0) := not_lt.mpr hn0
  by_cases h1 : n = 1 <;> simp [h0, h1]

/-- Full behaviour of `broadcast_image` for a dictionary whose
`-image_key` parses to `k`, whose image params parse, and whose
`-nangles`/`-arange` are well formed (`n ≥ 0`, `n ≠ 1`). -/
theorem broadcast_image_eq (frame_data : List Nat) (d : ParamDict) (fid : Nat)
    (ik ns ar : String) (columns rows : PyVal) (dtype : String) (k n : Int) (a : Rat)
    (hik : List.lookup "-image_key" d = some ik)
    (hp : parse_image_params d = .ok (columns, rows, dtype))
    (hk : py_int ik = .ok k)
    (hns : List.lookup "-nangles" d = some ns) (hn : py_int ns = .ok n)
    (har : List.lookup "-arange" d = some ar) (ha : py_float ar = .ok a)
    (hn0 : 0 ≤ n) (hn1 : n ≠ 1) :
    broadcast_image frame_data d fid =
      (⟨if k = 0 then [⟨.data, fid, frame_data, columns, rows, dtype⟩]
        else if k = 1 then [⟨.white, fid, frame_data, columns, rows, dtype⟩]
        else if k = 2 then [⟨.dark, fid, frame_data, columns, rows, dtype⟩]
        else [],
        if k = 0 then 1 else 0,
        [(tomostream_pv_root ++ "NumAngles", .vint n),
         (tomostream_pv_root ++ "RotationStep", .vfloat (a / ((n : Rat) - 1))),
         (tomostream_pv_root ++ "FrameType", .vstr ik)]⟩, none) := by
  obtain ⟨ts, hts⟩ := broadcast_theta_ok d ns ar n a hns hn har ha hn0
  have hu := update_ancillary_ok tomostream_pv_root d ns ar ik n a hns hn har ha hik hn1
  unfold broadcast_image
  simp only [hik, hp, hk, hts, hu]
  by_cases h0 : k = 0
  · simp [h0]
  · simp [h0]

/-- C3 counterexample: for a dispatched frame whose dictionary contains
`-image_key` and both shape keys but no `-dtype`, `parse_image_params`
raises `UnboundLocalError` before routing — so `-image_key` 5 yields
zero broadcasts *with* an error (the claim says no error is raised),
and `-image_key` 0 yields zero broadcasts (the claim says exactly one
projection broadcast). -/
theorem C3_counterexample :
    broadcast_image [7] [("-image_key", "5"), ("-nrays", "10"), ("-nslices", "10")] 7
      = (Effects.empty, some PyErr.unboundLocalError) ∧
    (broadcast_image [7] [("-image_key", "0"), ("-nrays", "10"), ("-nslices", "10")] 7).1.broadcasts
      = [] := by
  constructor <;> rfl

/-- C3 (amended): for a dispatched Valid frame whose dictionary
contains `-image_key` (parsing to integer `k`), both shape keys,
`-dtype` mapped to the empty string, and well-formed `-nangles` (a
non-negative integer other than 1) and `-arange`: `k = 0` triggers
exactly one broadcast to the projection (data) sink plus one theta
computation; `k = 1` exactly one white-sink broadcast and no theta;
`k = 2` exactly one dark-sink broadcast and no theta; any other
integer zero broadcasts, no theta, and no error. -/
theorem C3_routing (frame_data : List Nat) (d : ParamDict) (fid : Nat)
    (ik cs rs ns ar : String) (k n : Int) (a : Rat)
    (hik : List.lookup "-image_key" d = some ik) (hk : py_int ik = .ok k)
    (hcs : List.lookup "-nrays" d = some cs)
    (hrs : List.lookup "-nslices" d = some rs)
    (hdt : List.lookup "-dtype" d = some "")
    (hns : List.lookup "-nangles" d = some ns) (hn : py_int ns = .ok n)
    (har : List.lookup "-arange" d = some ar) (ha : py_float ar = .ok a)
    (hn0 : 0 ≤ n) (hn1 : n ≠ 1) :
    (broadcast_image frame_data d fid).1.broadcasts
      = (if k = 0 then [⟨.data, fid, frame_data, .vstr cs, .vstr rs, "uint16"⟩]
         else if k = 1 then [⟨.white, fid, frame_data, .vstr cs, .vstr rs, "uint16"⟩]
         else if k = 2 then [⟨.dark, fid, frame_data, .vstr cs, .vstr rs, "uint16"⟩]
         else []) ∧
    (broadcast_image frame_data d fid).1.thetas = (if k = 0 then 1 else 0) ∧
    (broadcast_image frame_data d fid).2 = none := by
  rw [broadcast_image_eq frame_data d fid ik ns ar (.vstr cs) (.vstr rs) "uint16" k n a
      hik (parse_image_params_ok d cs rs hcs hrs hdt) hk hns hn har ha hn0 hn1]
  exact ⟨rfl, rfl, rfl⟩

/-- C3 witness: concrete dictionaries — `-image_key 0` gives one
projection-sink broadcast and one theta computation with no error;
`-image_key 5` gives zero broadcasts, no theta, and no error. -/
theorem C3_routing_witness :
    ((broadcast_image [7] [("-image_key", "0"), ("-nrays", "10"), ("-nslices", "20"),
        ("-dtype", ""), ("-nangles", "5"), ("-arange", "180")] 3).1.broadcasts
      = [⟨.data, 3, [7], .vstr "10", .vstr "20", "uint16"⟩] ∧
     (broadcast_image [7] [("-image_key", "0"), ("-nrays", "10"), ("-nslices", "20"),
        ("-dtype", ""), ("-nangles", "5"), ("-arange", "180")] 3).1.thetas = 1 ∧
     (broadcast_image [7] [("-image_key", "0"), ("-nrays", "10"), ("-nslices", "20"),
        ("-dtype", ""), ("-nangles", "5"), ("-arange", "180")] 3).2 = none) ∧
    ((broadcast_image [7] [("-image_key", "5"), ("-nrays", "10"), ("-nslices", "20"),
        ("-dtype", ""), ("-nangles", "5"), ("-arange", "180")] 3).1.broadcasts = [] ∧
     (broadcast_image [7] [("-image_key", "5"), ("-nrays", "10"), ("-nslices", "20"),
        ("-dtype", ""), ("-nangles", "5"), ("-arange", "180")] 3).1.thetas = 0 ∧
     (broadcast_image [7] [("-image_key", "5"), ("-nrays", "10"), ("-nslices", "20"),
        ("-dtype", ""), ("-nangles", "5"), ("-arange", "180")] 3).2 = none) := by
  constructor
  · have h := C3_routing [7] [("-image_key", "0"), ("-nrays", "10"), ("-nslices", "20"),
        ("-dtype", ""), ("-nangles", "5"), ("-arange", "180")] 3 "0" "10" "20" "5" "180" 0 5 180
        (by rfl) (by rfl) (by rfl) (by rfl) (by rfl) (by rfl) (by rfl) (by rfl) (by rfl)
        (by decide) (by decide)
    simpa using h
  · have h := C3_routing [7] [("-image_key", "5"), ("-nrays", "10"), ("-nslices", "20"),
        ("-dtype", ""), ("-nangles", "5"), ("-arange", "180")] 3 "5" "10" "20" "5" "180" 5 5 180
        (by rfl) (by rfl) (by rfl) (by rfl) (by rfl) (by rfl) (by rfl) (by rfl) (by rfl)
        (by decide) (by decide)
    simpa using h

/-- With `-nangles` parsing to the integer 1, `update_ancillary_pvs`
performs the single `NumAngles` write and then raises
`ZeroDivisionError` from the `RotationStep` division. -/
theorem update_ancillary_div_zero (pv_root : String) (d : ParamDict) (ns ar : String)
    (a : Rat)
    (hns : List.lookup "-nangles" d = some ns) (hn : py_int ns = .ok 1)
    (har : List.lookup "-arange" d = some ar) (ha : py_float ar = .ok a) :
    update_ancillary_pvs pv_root d
      = ([(pv_root ++ "NumAngles", PyVal.vint 1)], some PyErr.zeroDivisionError) := by
  have hz : ((1 : Int) : Rat) - 1 = 0 := by norm_num
  unfold update_ancillary_pvs
  simp only [hns, hn, har, ha, py_div, hz]
  simp

/-- For a routable key other than 0 (no theta step), the metadata
writes and the raised error of `broadcast_image` are exactly those of
`update_ancillary_pvs`. -/
theorem broadcast_image_caputs (frame_data : List Nat) (d : ParamDict) (fid : Nat)
    (ik : String) (p : PyVal × PyVal × String) (k : Int)
    (hik : List.lookup "-image_key" d = some ik)
    (hp : parse_image_params d = .ok p)
    (hk : py_int ik = .ok k) (hk0 : k ≠ 0) :
    (broadcast_image frame_data d fid).1.caputs
      = (update_ancillary_pvs tomostream_pv_root d).1 ∧
    (broadcast_image frame_data d fid).2
      = (update_ancillary_pvs tomostream_pv_root d).2 := by
  obtain ⟨columns, rows, dtype⟩ := p
  unfold broadcast_image
  simp only [hik, hp, hk]
  simp [hk0]

/-- C6 counterexample: a Valid frame with `-image_key` but neither
`-nrays` nor `+nrays` is *not* aborted with zero side effects — the
missing-shape path substitutes `0, 0, 'uint16'` and dispatch continues:
one image broadcast (with zero dimensions) and three metadata writes
occur. -/
theorem C6_counterexample :
    (broadcast_image [7] [("-image_key", "0"), ("-nangles", "5"), ("-arange", "180")] 7).1.broadcasts
      = [⟨.data, 7, [7], .vint 0, .vint 0, "uint16"⟩] ∧
    (broadcast_image [7] [("-image_key", "0"), ("-nangles", "5"), ("-arange", "180")] 7).1.caputs.length
      = 3 := by
  have h := broadcast_image_eq [7] [("-image_key", "0"), ("-nangles", "5"), ("-arange", "180")] 7
      "0" "5" "180" (.vint 0) (.vint 0) "uint16" 0 5 180
      (by rfl) (by rfl) (by rfl) (by rfl) (by rfl) (by rfl) (by rfl) (by decide) (by decide)
  rw [h]
  exact ⟨by simp, by rfl⟩

/-- C6 (amended): when both variants of a shape key are absent
(no `-nrays`/`+nrays`, or no `-nslices`/`+nslices`), the dispatcher
does not abort: `parse_image_params` substitutes columns `0`, rows `0`,
dtype `'uint16'` (the early return skips the dtype step), and — when
`-image_key` parses to an integer `k` and `-nangles`/`-arange` are
present and well formed (a non-negative integer other than 1, and a
float) — dispatch continues with these defaults: a routable `k`
(0, 1 or 2) still issues its single broadcast with zero dimensions,
any other `k` issues none, and the three metadata writes are performed
in every case with no error — side effects occur, not zero. -/
theorem C6_missing_shape_defaults (frame_data : List Nat) (d : ParamDict) (fid : Nat)
    (ik ns ar : String) (k n : Int) (a : Rat)
    (hshape : (List.lookup "-nrays" d = none ∧ List.lookup "+nrays" d = none) ∨
              (List.lookup "-nslices" d = none ∧ List.lookup "+nslices" d = none))
    (hik : List.lookup "-image_key" d = some ik) (hk : py_int ik = .ok k)
    (hns : List.lookup "-nangles" d = some ns) (hn : py_int ns = .ok n)
    (har : List.lookup "-arange" d = some ar) (ha : py_float ar = .ok a)
    (hn0 : 0 ≤ n) (hn1 : n ≠ 1) :
    parse_image_params d = .ok (.vint 0, .vint 0, "uint16") ∧
    (broadcast_image frame_data d fid).1.broadcasts
      = (if k = 0 then [⟨.data, fid, frame_data, .vint 0, .vint 0, "uint16"⟩]
         else if k = 1 then [⟨.white, fid, frame_data, .vint 0, .vint 0, "uint16"⟩]
         else if k = 2 then [⟨.dark, fid, frame_data, .vint 0, .vint 0, "uint16"⟩]
         else []) ∧
    (broadcast_image frame_data d fid).1.caputs
      = [(tomostream_pv_root ++ "NumAngles", .vint n),
         (tomostream_pv_root ++ "RotationStep", .vfloat (a / ((n : Rat) - 1))),
         (tomostream_pv_root ++ "FrameType", .vstr ik)] ∧
    (broadcast_image frame_data d fid).2 = none := by
  have hp : parse_image_params d = .ok (.vint 0, .vint 0, "uint16") := by
    unfold parse_image_params
    rcases hshape with ⟨h1, h2⟩ | ⟨h1, h2⟩
    · rw [h1, h2]
    · rw [h1, h2]
      cases List.lookup "-nrays" d <;> cases List.lookup "+nrays" d <;> rfl
  refine ⟨hp, ?_⟩
  rw [broadcast_image_eq frame_data d fid ik ns ar (.vint 0) (.vint 0) "uint16" k n a
      hik hp hk hns hn har ha hn0 hn1]
  exact ⟨rfl, rfl, rfl⟩

/-- C6 witness: concrete dictionaries with no rays key — `-image_key 0`
still produces one zero-dimension broadcast and three metadata writes;
`-image_key 5` produces no broadcast but still the three writes; no
error in either case. -/
theorem C6_missing_shape_defaults_witness :
    (parse_image_params [("-image_key", "0"), ("-nangles", "5"), ("-arange", "180")]
      = .ok (.vint 0, .vint 0, "uint16") ∧
     (broadcast_image [9] [("-image_key", "0"), ("-nangles", "5"), ("-arange", "180")] 4).1.broadcasts
      = [⟨.data, 4, [9], .vint 0, .vint 0, "uint16"⟩] ∧
     (broadcast_image [9] [("-image_key", "0"), ("-nangles", "5"), ("-arange", "180")] 4).1.caputs.length
      = 3 ∧
     (broadcast_image [9] [("-image_key", "0"), ("-nangles", "5"), ("-arange", "180")] 4).2 = none) ∧
    ((broadcast_image [9] [("-image_key", "5"), ("-nangles", "5"), ("-arange", "180")] 4).1.broadcasts
      = [] ∧
     (broadcast_image [9] [("-image_key", "5"), ("-nangles", "5"), ("-arange", "180")] 4).1.caputs.length
      = 3 ∧
     (broadcast_image [9] [("-image_key", "5"), ("-nangles", "5"), ("-arange", "180")] 4).2 = none) := by
  constructor
  · have h := C6_missing_shape_defaults [9]
        [("-image_key", "0"), ("-nangles", "5"), ("-arange", "180")] 4 "0" "5" "180" 0 5 180
        (Or.inl ⟨by rfl, by rfl⟩) (by rfl) (by rfl) (by rfl) (by rfl) (by rfl) (by rfl)
        (by decide) (by decide)
    refine ⟨h.1, ?_, ?_, h.2.2.2⟩
    · simpa using h.2.1
    · rw [h.2.2.1]
      rfl
  · have h := C6_missing_shape_defaults [9]
        [("-image_key", "5"), ("-nangles", "5"), ("-arange", "180")] 4 "5" "5" "180" 5 5 180
        (Or.inl ⟨by rfl, by rfl⟩) (by rfl) (by rfl) (by rfl) (by rfl) (by rfl) (by rfl)
        (by decide) (by decide)
    refine ⟨?_, ?_, h.2.2.2⟩
    · simpa using h.2.1
    · rw [h.2.2.1]
      rfl

/-- C7 counterexample: with `-nangles` equal to 1 the source raises the
generic Python `ZeroDivisionError` (after having already written
`NumAngles`), not a defined `DegenerateAngleRange` error. -/
theorem C7_counterexample :
    update_ancillary_pvs tomostream_pv_root
        [("-nangles", "1"), ("-arange", "180"), ("-image_key", "0")]
      = ([(tomostream_pv_root ++ "NumAngles", PyVal.vint 1)], some PyErr.zeroDivisionError) ∧
    some PyErr.zeroDivisionError ≠ some PyErr.degenerateAngleRange :=
  ⟨update_ancillary_div_zero tomostream_pv_root
      [("-nangles", "1"), ("-arange", "180"), ("-image_key", "0")] "1" "180" 180
      (by rfl) (by rfl) (by rfl) (by rfl),
   by decide⟩

/-- C7 (amended): the `RotationStep` write computes
`float(-arange) / (int(-nangles) - 1)`; when `int(-nangles)` is 1 the
division raises the generic `ZeroDivisionError` (caught only by the
loop's broad handler, after the `NumAngles` write) rather than a
defined `DegenerateAngleRange` error or a floating-point
infinity/NaN; otherwise the three writes complete. -/
theorem C7_rotation_step (pv_root : String) (d : ParamDict) (ns ar ik : String)
    (n : Int) (a : Rat)
    (hns : List.lookup "-nangles" d = some ns) (hn : py_int ns = .ok n)
    (har : List.lookup "-arange" d = some ar) (ha : py_float ar = .ok a)
    (hik : List.lookup "-image_key" d = some ik) :
    update_ancillary_pvs pv_root d =
      if n = 1 then
        ([(pv_root ++ "NumAngles", .vint 1)], some .zeroDivisionError)
      else
        ([(pv_root ++ "NumAngles", .vint n),
          (pv_root ++ "RotationStep", .vfloat (a / ((n : Rat) - 1))),
          (pv_root ++ "FrameType", .vstr ik)], none) := by
  by_cases h1 : n = 1
  · subst h1
    rw [update_ancillary_div_zero pv_root d ns ar a hns hn har ha]
    simp
  · rw [update_ancillary_ok pv_root d ns ar ik n a hns hn har ha hik h1]
    simp [h1]

/-- C7 witness: `-nangles=5, -arange=180` writes `RotationStep = 45`;
`-nangles=1, -arange=181` raises `ZeroDivisionError` instead of
producing an infinity. -/
theorem C7_rotation_step_witness :
    update_ancillary_pvs tomostream_pv_root
        [("-nangles", "5"), ("-arange", "180"), ("-image_key", "0")]
      = ([(tomostream_pv_root ++ "NumAngles", PyVal.vint 5),
          (tomostream_pv_root ++ "RotationStep", PyVal.vfloat 45),
          (tomostream_pv_root ++ "FrameType", PyVal.vstr "0")], none) ∧
    update_ancillary_pvs tomostream_pv_root
        [("-nangles", "1"), ("-arange", "181"), ("-image_key", "0")]
      = ([(tomostream_pv_root ++ "NumAngles", PyVal.vint 1)], some PyErr.zeroDivisionError) := by
  constructor
  · have h := C7_rotation_step tomostream_pv_root
        [("-nangles", "5"), ("-arange", "180"), ("-image_key", "0")]
        "5" "180" "0" 5 180 (by rfl) (by rfl) (by rfl) (by rfl) (by rfl)
    norm_num at h
    exact h
  · have h := C7_rotation_step tomostream_pv_root
        [("-nangles", "1"), ("-arange", "181"), ("-image_key", "0")]
        "1" "181" "0" 1 181 (by rfl) (by rfl) (by rfl) (by rfl) (by rfl)
    simpa using h

/-- C9 counterexample: a Valid frame that passes the routing and
shape-key checks (and the dtype step) but has `-nangles = 1` performs
exactly one metadata write (`NumAngles`), not three — the
`RotationStep` division raises before the remaining writes. -/
theorem C9_counterexample :
    (broadcast_image [7] [("-image_key", "1"), ("-nrays", "10"), ("-nslices", "20"),
        ("-dtype", ""), ("-nangles", "1"), ("-arange", "180")] 7).1.caputs
      = [(tomostream_pv_root ++ "NumAngles", PyVal.vint 1)] ∧
    (1 : Nat) ≠ 3 := by
  have hu := update_ancillary_div_zero tomostream_pv_root
      [("-image_key", "1"), ("-nrays", "10"), ("-nslices", "20"),
       ("-dtype", ""), ("-nangles", "1"), ("-arange", "180")] "1" "180" 180
      (by rfl) (by rfl) (by rfl) (by rfl)
  have hc := broadcast_image_caputs [7]
      [("-image_key", "1"), ("-nrays", "10"), ("-nslices", "20"),
       ("-dtype", ""), ("-nangles", "1"), ("-arange", "180")] 7
      "1" (.vstr "10", .vstr "20", "uint16") 1
      (by rfl) (by rfl) (by rfl) (by decide)
  exact ⟨by rw [hc.1, hu], by decide⟩

/-- C9 (amended): for every dispatched Valid frame that passes the
routing and shape-key checks and whose `-dtype` is the empty string,
`-nangles` parses to a non-negative integer other than 1, and
`-arange` parses: exactly three metadata writes occur regardless of
image kind — `NumAngles = int(-nangles)`, then
`RotationStep = float(-arange) / (NumAngles - 1)`, then `FrameType` as
the raw `-image_key` string — and no others. -/
theorem C9_ancillary_writes (frame_data : List Nat) (d : ParamDict) (fid : Nat)
    (ik cs rs ns ar : String) (k n : Int) (a : Rat)
    (hik : List.lookup "-image_key" d = some ik) (hk : py_int ik = .ok k)
    (hcs : List.lookup "-nrays" d = some cs)
    (hrs : List.lookup "-nslices" d = some rs)
    (hdt : List.lookup "-dtype" d = some "")
    (hns : List.lookup "-nangles" d = some ns) (hn : py_int ns = .ok n)
    (har : List.lookup "-arange" d = some ar) (ha : py_float ar = .ok a)
    (hn0 : 0 ≤ n) (hn1 : n ≠ 1) :
    (broadcast_image frame_data d fid).1.caputs
      = [(tomostream_pv_root ++ "NumAngles", .vint n),
         (tomostream_pv_root ++ "RotationStep", .vfloat (a / ((n : Rat) - 1))),
         (tomostream_pv_root ++ "FrameType", .vstr ik)] ∧
    (broadcast_image frame_data d fid).2 = none := by
  rw [broadcast_image_eq frame_data d fid ik ns ar (.vstr cs) (.vstr rs) "uint16" k n a
      hik (parse_image_params_ok d cs rs hcs hrs hdt) hk hns hn har ha hn0 hn1]
  exact ⟨rfl, rfl⟩

/-- C9 witness: a white-field frame (`-image_key 1`) with
`-nangles 5, -arange 180` performs exactly the three writes, with
`RotationStep = 45`. -/
theorem C9_ancillary_writes_witness :
    (broadcast_image [7] [("-image_key", "1"), ("-nrays", "10"), ("-nslices", "20"),
        ("-dtype", ""), ("-nangles", "5"), ("-arange", "180")] 6).1.caputs
      = [(tomostream_pv_root ++ "NumAngles", PyVal.vint 5),
         (tomostream_pv_root ++ "RotationStep", PyVal.vfloat 45),
         (tomostream_pv_root ++ "FrameType", PyVal.vstr "1")] ∧
    (broadcast_image [7] [("-image_key", "1"), ("-nrays", "10"), ("-nslices", "20"),
        ("-dtype", ""), ("-nangles", "5"), ("-arange", "180")] 6).2 = none := by
  have h := C9_ancillary_writes [7] [("-image_key", "1"), ("-nrays", "10"), ("-nslices", "20"),
      ("-dtype", ""), ("-nangles", "5"), ("-arange", "180")] 6 "1" "10" "20" "5" "180" 1 5 180
    (by rfl) (by rfl) (by rfl) (by rfl) (by rfl) (by rfl) (by rfl) (by rfl) (by rfl)
    (by decide) (by decide)
  norm_num at h
  exact h

/-- One step of `splitChar`: the first piece is the accumulator
followed by the characters before the first separator, and the rest is
the split of what follows the first separator. -/
theorem splitChar_eq (sep : Char) (cs acc : List Char) :
    splitChar sep cs acc =
      (acc ++ cs.takeWhile (fun c => c != sep)) ::
        (match cs.dropWhile (fun c => c != sep) with
         | [] => []
         | _ :: t => splitChar sep t []) := by
  induction cs generalizing acc with
  | nil => simp [splitChar]
  | cons c rest ih =>
    by_cases h : c = sep
    · subst h
      simp [splitChar]
    · rw [splitChar]
      simp [h, ih (acc ++ [c])]

/-- The per-line update of `params_to_dict` stores, for the line's
first space-split token as key, its second space-split token (or `""`
when the line has no space) — i.e. the spec-side `specKey`/`specVal`. -/
theorem params_step_eq (d : ParamDict) (l : List Char) :
    (match splitChar ' ' l [] with
     | [] => d
     | [k] => dict_set d ⟨k⟩ ""
     | k :: v :: _ => dict_set d ⟨k⟩ ⟨v⟩) = dict_set d (specKey l) (specVal l) := by
  rw [splitChar_eq]
  cases hd : l.dropWhile (fun c => c != ' ') with
  | nil => simp [specKey, specVal, hd]
  | cons c t =>
    simp [specKey, specVal, hd, splitChar_eq ' ' t ([] : List Char)]

/-- Looking up after a Python-style dict assignment: the assigned key
now maps to the new value; other keys are unchanged. -/
theorem lookup_dict_set (d : ParamDict) (k k' v : String) :
    List.lookup k (dict_set d k' v) = if k' = k then some v else List.lookup k d := by
  induction d with
  | nil =>
    by_cases h : k' = k
    · subst h
      simp [dict_set, List.lookup]
    · have hb : (k == k') = false := beq_eq_false_iff_ne.mpr (fun hh => h hh.symm)
      simp [dict_set, List.lookup, hb, h]
  | cons a rest ih =>
    obtain ⟨ak, av⟩ := a
    by_cases h1 : ak = k'
    · subst h1
      by_cases h2 : ak = k
      · subst h2
        simp [dict_set, List.lookup]
      · have hb : (k == ak) = false := beq_eq_false_iff_ne.mpr (fun hh => h2 hh.symm)
        simp [dict_set, List.lookup, hb, h2]
    · by_cases h3 : ak = k
      · subst h3
        by_cases h2 : k' = ak
        · exact absurd h2.symm h1
        · simp [dict_set, List.lookup, h1, h2]
      · have hb : (k == ak) = false := beq_eq_false_iff_ne.mpr (fun hh => h3 hh.symm)
        by_cases h2 : k' = k
        · subst h2
          simp [dict_set, List.lookup, h1, h3, hb, ih]
        · simp [dict_set, List.lookup, h1, h2, h3, hb, ih]

/-- Folding the `params_to_dict` update over a list of lines: a key
maps to the value of the last line whose key matches (the spec-side
lookup), falling back to the initial dictionary. -/
theorem params_fold_lookup (k : String) (lines : List (List Char)) (d : ParamDict) :
    List.lookup k (lines.foldl (fun output_dict i =>
        match splitChar ' ' i [] with
        | [] => output_dict
        | [kk] => dict_set output_dict ⟨kk⟩ ""
        | kk :: vv :: _ => dict_set output_dict ⟨kk⟩ ⟨vv⟩) d) =
      match specLookupLines k lines with
      | some v => some v
      | none => List.lookup k d := by
  induction lines generalizing d with
  | nil => simp [specLookupLines]
  | cons l rest ih =>
    simp only [List.foldl_cons]
    rw [ih, params_step_eq, lookup_dict_set]
    cases hrest : specLookupLines k rest with
    | some v => simp [specLookupLines, hrest]
    | none =>
      by_cases h : specKey l = k <;> simp [specLookupLines, hrest, h]

/-- C5 counterexample: for the single line `"k a b"` the code maps
`"k"` to `"a"` (the second space-split token), not to the entire
remainder `"a b"` as the claim states. -/
theorem C5_counterexample :
    List.lookup "k" (params_to_dict "k a b") = some "a" ∧ ("a" : String) ≠ "a b" :=
  ⟨by rfl, by decide⟩

/-- C5 (amended): `params_to_dict` splits the params text on CRLF
into lines and maps, for each line, the text before the first space to
the text between the first space and the following space or end of
line (the *second space-split token*, not the entire remainder); a
line with no space maps the whole line to the empty string; when a key
occurs on several lines the last occurrence wins — i.e. lookup in the
built dictionary agrees with the spec-side `specLookupLines`. -/
theorem C5_param_codec (params : String) (k : String) :
    List.lookup k (params_to_dict params)
      = specLookupLines k (splitCRLF params.data []) := by
  unfold params_to_dict
  rw [params_fold_lookup]
  cases h : specLookupLines k (splitCRLF params.data []) <;> simp
